import Mathlib

/-! Shallow embedding of the motionpitch Flask application (src/app.py):
the quota gate, the prompt cache manager, the planner glue, the media
batch orchestrator with its as-completed fan-in loop, the video poller,
and the generate route, together with theorems settling the claims of
the specification against it. Remote calls are oracles passed as
parameters; the completion order of the thread pool is an explicit list
of slide indices; the Python local-variable semantics of the loop
variable media_url is made explicit as an Option value threaded through
the fan-in loop, where none models a local that was never assigned and
whose read raises UnboundLocalError. -/

namespace MotionPitch

/-- Slide specification as produced by the planner (class Slide inside
AIService.plan_presentation, lines 266-270 of src/app.py). -/
structure Slide where
  title : String
  content : String
  visual_prompt : String
  video_prompt : String
deriving DecidableEq

/-- Parsed plan (class PresentationSchema, lines 272-274): a deck title
and an ordered list of slide specifications. -/
structure Plan where
  title : String
  slides : List Slide
deriving DecidableEq

/-- Finalized per-slide record as stored into the slides array by the
fan-in loop of generate (lines 444-449). -/
structure SlideResult where
  title : String
  content : String
  media_url : String
  media_type : String
deriving DecidableEq

/-- Model of url_for for a file below static/ with _external=True: a
fixed host part followed by the static-relative filename. -/
def url_for_static (filename : String) : String :=
  "https://host/static/" ++ filename

/-- Construction of the slide dictionary at lines 444-449. The stored
media_url field is the Python expression media_url if img_url else
url_for(static placeholder): img_url decides by string truthiness, and
when it is truthy the Python local media_url is read, which raises
UnboundLocalError when no prior assignment to it happened (modelled by
the none case of mu). -/
def mkResult (s : Slide) (img_url : String) (mu : Option String)
    (media_type : String) : Except String SlideResult :=
  if img_url = "" then
    Except.ok { title := s.title, content := s.content,
                media_url := url_for_static "placeholder.png",
                media_type := media_type }
  else
    match mu with
    | none => Except.error "UnboundLocalError"
    | some u => Except.ok { title := s.title, content := s.content,
                            media_url := u, media_type := media_type }

/-- One iteration of the as-completed fan-in loop of generate (lines
421-449) for the completed future of slide idx. img is the result of
AIService.generate_image for that index: none models the (idx, None,
None) failure return, some (filename, local_path) the success return.
videoRes is the oracle for AIService.generate_video. mu is the current
value of the Python local media_url (none when never assigned). Returns
the stored SlideResult together with the value of media_url after this
iteration, or the uncaught exception aborting the request. In the
failure branch the code only sets img_url to the placeholder file name
and media_type to image, leaving media_url untouched; in the success
branch media_url is assigned the external image URL, and for
enable_video with index 0, a truthy video_prompt and a truthy
local_path the video call runs and a truthy result overwrites media_url
and media_type. -/
def processSlide (img : Option (String × String))
    (videoRes : String → String → Option String) (enable_video : Bool)
    (idx : Nat) (s : Slide) (mu : Option String) :
    Except String (SlideResult × Option String) :=
  match img with
  | none =>
      (mkResult s "placeholder.png" mu "image").map (fun r => (r, mu))
  | some (filename, local_path) =>
      let mu1 : Option String := some (url_for_static ("uploads/" ++ filename))
      if enable_video = true ∧ idx = 0 ∧ ¬(s.video_prompt = "") ∧ ¬(local_path = "") then
        match videoRes local_path s.video_prompt with
        | some v =>
            if v = "" then
              (mkResult s filename mu1 "image").map (fun r => (r, mu1))
            else
              (mkResult s filename (some v) "video").map (fun r => (r, some v))
        | none =>
            (mkResult s filename mu1 "image").map (fun r => (r, mu1))
      else
        (mkResult s filename mu1 "image").map (fun r => (r, mu1))

/-- Fan-in loop of generate over the remaining completion order,
carrying the slides array (slot per index, None initialized) and the
Python local media_url. Each step looks up the slide specification
plan.slides[idx] and stores the processed result into slot idx. -/
def runBatchAux (imgRes : Nat → Option (String × String))
    (videoRes : String → String → Option String) (enable_video : Bool)
    (plan : Plan) :
    List Nat → List (Option SlideResult) → Option String →
      Except String (List (Option SlideResult))
  | [], acc, _ => Except.ok acc
  | idx :: rest, acc, mu =>
      match plan.slides[idx]? with
      | none => Except.error "IndexError"
      | some s =>
          match processSlide (imgRes idx) videoRes enable_video idx s mu with
          | Except.error e => Except.error e
          | Except.ok (r, mu2) =>
              runBatchAux imgRes videoRes enable_video plan rest
                (acc.set idx (some r)) mu2

/-- Media batch of generate (lines 410-449): allocate one None slot per
planned slide and run the fan-in loop over the completion order of the
image futures, with the local media_url initially unassigned. -/
def runBatch (imgRes : Nat → Option (String × String))
    (videoRes : String → String → Option String) (enable_video : Bool)
    (plan : Plan) (order : List Nat) :
    Except String (List (Option SlideResult)) :=
  runBatchAux imgRes videoRes enable_video plan order
    (List.replicate plan.slides.length none) none

/-- One invocation of AIService.get_cached_architect (lines 82-156).
The state st is the global cached_architect_name (none for the Python
None initial value); create is the outcome of the remote
client.caches.create call, consulted only when the state is falsy under
Python truthiness (None or the empty string). The returned triple is
(returned value, new state, whether a remote creation call was made):
on creation success the global is set to the new name and returned, on
creation failure the function returns None leaving the state as it was. -/
def get_cached_architect (create : Option String) (st : Option String) :
    Option String × Option String × Bool :=
  if st = none ∨ st = some "" then
    match create with
    | some name => (some name, some name, true)
    | none => (none, st, true)
  else (st, st, false)

/-- Sequence of invocations of get_cached_architect within one process:
outcomes lists, per invocation, the result the remote creation call
would have if attempted. Returns the final state and the total number
of remote creation calls actually made. -/
def cache_run : List (Option String) → Option String → Option String × Nat
  | [], st => (st, 0)
  | o :: rest, st =>
      let r := get_cached_architect o st
      let next := cache_run rest r.2.1
      (next.1, (if r.2.2 then 1 else 0) + next.2)

/-- Polling loop of AIService.generate_video (lines 223-232): done k is
the completion status of the operation after k refreshes, c the current
poll count, and the second argument the remaining allowance up to the
cap. The loop runs while the operation is not done and the count is
below the cap, refreshing the operation and incrementing the count on
each pass; the returned value is the final poll count. -/
def poll_from (done : Nat → Bool) (c : Nat) : Nat → Nat
  | 0 => c
  | fuel + 1 => if done c then c else poll_from done (c + 1) fuel

/-- Cap of 120 poll attempts (max_polls at line 224). -/
def max_polls : Nat := 120

/-- Result of AIService.generate_video (lines 196-258): exn models an
exception raised anywhere in the try block, which the except clause
converts into a None return; done is the operation status after k
refreshes; has_videos is whether the completed response carries a
generated video; fname is the fresh video file name. After the polling
loop, a still-unfinished operation or an empty response yields None,
otherwise the external URL of the downloaded video is returned. -/
def generate_video_model (exn : Bool) (done : Nat → Bool)
    (has_videos : Bool) (fname : String) : Option String :=
  if exn then none
  else
    let c := poll_from done 0 max_polls
    if done c = false then none
    else if has_videos = false then none
    else some (url_for_static ("uploads/" ++ fname))

/-- Result of AIService.plan_presentation (lines 261-325): callRes is
the text of the structured response, none when the generate_content
call raised; parse models json.loads on that text, none when it raised.
The try block catches both failures and returns None. -/
def plan_presentation (callRes : Option String)
    (parse : String → Option Plan) : Option Plan :=
  match callRes with
  | none => none
  | some txt => parse txt

/-- Surrounding whitespace stripped from a character list, as the
Python int conversion does before reading the number. -/
def pyTrim (cs : List Char) : List Char :=
  ((cs.dropWhile Char.isWhitespace).reverse.dropWhile Char.isWhitespace).reverse

/-- Decimal digit run read as a natural number; none when the run is
empty or contains a non-digit. -/
def digitsVal : List Char → Option Nat
  | [] => none
  | cs =>
      if cs.all Char.isDigit then
        some (cs.foldl (fun a c => 10 * a + (c.toNat - 48)) 0)
      else none

/-- Model of the Python builtin int applied to a string: surrounding
whitespace is stripped and an optional sign is followed by decimal
digits; none models a raised ValueError. Digit-group underscores are
not modelled; no input in this development uses them. -/
def parseIntPy (s : String) : Option Int :=
  match pyTrim s.toList with
  | '-' :: rest => (digitsVal rest).map (fun n => -(n : Int))
  | '+' :: rest => (digitsVal rest).map (fun n => (n : Int))
  | cs => (digitsVal cs).map (fun n => (n : Int))

/-- Line 384 of generate: int applied to the slide_count form field
with the default 3 used when the field is absent. With the field
present, a Python int conversion failure is an uncaught ValueError. -/
def parse_slide_count (field : Option String) : Option Int :=
  match field with
  | none => some 3
  | some s => parseIntPy s

/-- Outcome of one call of the generate route: the 403 denial of the
guest_limit_check decorator, an aborting error (uncaught exception or
the Planning Failed 500 response), or the persisted presentation record
(title, slides_data, user_id, has_video) built at lines 452-458. -/
inductive GenOutcome where
  | denied : GenOutcome
  | error : String → GenOutcome
  | success : String → List (Option SlideResult) → Option Nat → Bool → GenOutcome
deriving DecidableEq

/-- The generate route (lines 380-463) together with its
guest_limit_check decorator (lines 334-343). user is g.user (none for a
guest), usage the stored guest_usage session counter (0 when absent).
slide_count_field and enable_video_field are the raw form fields;
planRes is the outcome of AIService.plan_presentation; imgRes, videoRes
and order drive the media batch. Returns the outcome and the new value
of the guest counter. Order of effects follows the source: the
decorator denies a guest at the limit before anything else; the
slide_count conversion at line 384 runs before the counter increment at
lines 389-390, so a ValueError aborts without incrementing; a planning
failure aborts with the Planning Failed error after the increment; a
batch exception propagates; otherwise the presentation is persisted
with has_video set to the enable_video input. The topic, url_link and
pdf_file fields only feed the planning call and are absorbed into the
planRes oracle. -/
def generate_route (user : Option Nat) (usage : Nat)
    (slide_count_field enable_video_field : Option String)
    (planRes : Option Plan)
    (imgRes : Nat → Option (String × String))
    (videoRes : String → String → Option String)
    (order : List Nat) : GenOutcome × Nat :=
  if user = none ∧ 15 ≤ usage then (GenOutcome.denied, usage)
  else
    match parse_slide_count slide_count_field with
    | none => (GenOutcome.error "ValueError", usage)
    | some _ =>
        match planRes with
        | none => (GenOutcome.error "Planning Failed",
            if user = none then usage + 1 else usage)
        | some plan =>
            match runBatch imgRes videoRes (enable_video_field == some "true")
                plan order with
            | Except.error e => (GenOutcome.error e,
                if user = none then usage + 1 else usage)
            | Except.ok slides =>
                (GenOutcome.success plan.title slides user
                    (enable_video_field == some "true"),
                 if user = none then usage + 1 else usage)

/-- Sequence of n generate requests by the same caller with a fixed,
well-formed form (no slide_count field, no video, planning failing):
returns the final guest counter and the per-request list of whether the
request passed the quota gate. -/
def gen_seq (user : Option Nat) : Nat → Nat → Nat × List Bool
  | 0, u => (u, [])
  | n + 1, u =>
      let r := generate_route user u none none none (fun _ => none)
        (fun _ _ => none) []
      let allowed : Bool := match r.1 with
        | GenOutcome.denied => false
        | _ => true
      let next := gen_seq user n r.2
      (next.1, allowed :: next.2)

/-- Fixture slide with a nonempty video prompt. -/
def slideA : Slide :=
  { title := "t0", content := "c0", visual_prompt := "v0", video_prompt := "w0" }

/-- Second fixture slide. -/
def slideB : Slide :=
  { title := "t1", content := "c1", visual_prompt := "v1", video_prompt := "w1" }

/-- Single-slide fixture plan. -/
def planA : Plan := { title := "T", slides := [slideA] }

/-- Two-slide fixture plan. -/
def planAB : Plan := { title := "T", slides := [slideA, slideB] }

/-- Image oracle where every slide fails. -/
def imgAllFail : Nat → Option (String × String) := fun _ => none

/-- Image oracle where every slide succeeds with file a.png. -/
def imgAllOk : Nat → Option (String × String) :=
  fun _ => some ("a.png", "static/uploads/a.png")

/-- Image oracle where only slide 0 succeeds. -/
def imgFirstOk : Nat → Option (String × String) :=
  fun i => if i = 0 then some ("a.png", "static/uploads/a.png") else none

/-- Video oracle that always fails. -/
def vidNone : String → String → Option String := fun _ _ => none

/-- Video oracle that always succeeds. -/
def vidOk : String → String → Option String :=
  fun _ _ => some "https://host/static/uploads/veo.mp4"

/-- Expected slide-0 result when the image a.png succeeds and no video
replaces it. -/
def resImgA : SlideResult :=
  { title := "t0", content := "c0",
    media_url := url_for_static "uploads/a.png", media_type := "image" }

/-- Result actually stored for the failed slide 1 when slide 0
completed first: the stale media_url of slide 0 with the title and
content of slide 1. -/
def resStaleB : SlideResult :=
  { title := "t1", content := "c1",
    media_url := url_for_static "uploads/a.png", media_type := "image" }

/-- Expected slide-0 result when the video call succeeds. -/
def resVidA : SlideResult :=
  { title := "t0", content := "c0",
    media_url := "https://host/static/uploads/veo.mp4", media_type := "video" }

/-- Helper: the route is never the denial outcome once the decorator
condition fails, whatever the downstream oracles produce. -/
theorem generate_route_not_denied (user : Option Nat) (usage : Nat)
    (scf evf : Option String) (pr : Option Plan)
    (img : Nat → Option (String × String))
    (vid : String → String → Option String) (ord : List Nat)
    (h : ¬(user = none ∧ 15 ≤ usage)) :
    ¬((generate_route user usage scf evf pr img vid ord).1 = GenOutcome.denied) := by
  unfold generate_route
  rw [if_neg h]
  rcases hp : parse_slide_count scf with _ | k
  · simp
  · rcases pr with _ | plan
    · simp
    · rcases hr : runBatch img vid (evf == some "true") plan ord with e | sl
      · simp [hr]
      · simp [hr]

/-- Claim C1, evaluation at the failing input: a plan whose earliest
completed slide has a failed image generation makes the fan-in loop
read the never-assigned local media_url at line 447, so the batch
aborts with an UnboundLocalError instead of producing an index-aligned
sequence with a placeholder slot; shown for a one-slide plan, for a
two-slide plan with both images failing, and for either completion
order. -/
theorem batch_aborts_when_first_completion_fails :
    runBatch imgAllFail vidNone false planA [0] = Except.error "UnboundLocalError"
    ∧ runBatch imgAllFail vidNone false planAB [0, 1] = Except.error "UnboundLocalError"
    ∧ runBatch imgAllFail vidNone false planAB [1, 0] = Except.error "UnboundLocalError" :=
  ⟨rfl, rfl, rfl⟩

/-- Claim C2, evaluation at the failing input: slide 0 succeeds with
file a.png and completes first, the image of slide 1 fails; the record
stored for slide 1 carries the stale media_url of slide 0 rather than
the placeholder, and under the reversed completion order the request
aborts with an UnboundLocalError instead of storing a placeholder. -/
theorem failed_slide_inherits_stale_media_url :
    runBatch imgFirstOk vidNone false planAB [0, 1]
      = Except.ok [some resImgA, some resStaleB]
    ∧ resStaleB.media_url = url_for_static "uploads/a.png"
    ∧ ¬(resStaleB.media_url = url_for_static "placeholder.png")
    ∧ runBatch imgFirstOk vidNone false planAB [1, 0]
      = Except.error "UnboundLocalError" :=
  ⟨rfl, rfl, by decide, rfl⟩

/-- Claim C4: a guest request passes the gate exactly when the stored
usage count is below 15; a denial returns the counter unchanged; an
allowed well-formed guest request increments it by one; an
authenticated caller is never denied and their counter argument is
returned untouched; from a fresh counter, 15 guest requests pass and
the 16th is denied, while an authenticated caller passes any number of
requests with the counter constant. -/
theorem guest_quota_policy (u uid : Nat) (scf evf : Option String)
    (pr : Option Plan) (img : Nat → Option (String × String))
    (vid : String → String → Option String) (ord : List Nat) (k : Int)
    (hparse : parse_slide_count scf = some k) :
    (¬((generate_route none u scf evf pr img vid ord).1 = GenOutcome.denied) ↔ u < 15)
    ∧ (15 ≤ u → generate_route none u scf evf pr img vid ord = (GenOutcome.denied, u))
    ∧ (u < 15 → (generate_route none u scf evf pr img vid ord).2 = u + 1)
    ∧ ¬((generate_route (some uid) u scf evf pr img vid ord).1 = GenOutcome.denied)
    ∧ (generate_route (some uid) u scf evf pr img vid ord).2 = u
    ∧ gen_seq none 16 0 = (15, List.replicate 15 true ++ [false])
    ∧ (∀ n u0, gen_seq (some uid) n u0 = (u0, List.replicate n true)) := by
  have hden : 15 ≤ u → generate_route none u scf evf pr img vid ord
      = (GenOutcome.denied, u) := by
    intro h15
    unfold generate_route
    rw [if_pos ⟨rfl, h15⟩]
  refine ⟨?_, hden, ?_, ?_, ?_, by decide, ?_⟩
  · constructor
    · intro hnd
      by_contra hge
      exact hnd (by rw [hden (by omega)])
    · intro hu
      exact generate_route_not_denied none u scf evf pr img vid ord
        (by simp; omega)
  · intro hu
    unfold generate_route
    rw [if_neg (by simp; omega), hparse]
    rcases pr with _ | plan
    · simp
    · rcases hr : runBatch img vid (evf == some "true") plan ord with e | sl
      · simp [hr]
      · simp [hr]
  · exact generate_route_not_denied (some uid) u scf evf pr img vid ord (by simp)
  · unfold generate_route
    rw [if_neg (by simp), hparse]
    rcases pr with _ | plan
    · simp
    · rcases hr : runBatch img vid (evf == some "true") plan ord with e | sl
      · simp [hr]
      · simp [hr]
  · intro n
    induction n with
    | zero => intro u0; rfl
    | succ m ih =>
        intro u0
        have hr : generate_route (some uid) u0 none none none (fun _ => none)
            (fun _ _ => none) [] = (GenOutcome.error "Planning Failed", u0) := rfl
        simp [gen_seq, hr, ih u0, List.replicate_succ]

/-- Witness for guest_quota_policy: with a fresh counter, a guest
request increments the stored count to one. -/
theorem guest_quota_policy_witness :
    (generate_route none 0 none none none (fun _ => none) (fun _ _ => none) []).2
      = 0 + 1 :=
  (guest_quota_policy 0 1 none none none (fun _ => none) (fun _ _ => none) [] 3
    rfl).2.2.1 (by decide)

/-- Claim C5, counterexample: with the creation call failing, the
global handle stays falsy, so a second invocation in the same process
performs a second remote creation call — two remote calls where the
claim allows at most one and requires the second invocation to return
None without attempting a creation. -/
theorem cache_retries_after_failure_counterexample :
    cache_run [none, none] none = (none, 2) := rfl

/-- Helper: with a nonempty handle stored, any further invocation
sequence keeps the handle and performs no remote call. -/
theorem cache_run_set (s : String) (hs : ¬(s = "")) :
    ∀ rest : List (Option String), cache_run rest (some s) = (some s, 0)
  | [] => rfl
  | o :: rest => by
      simp [cache_run, get_cached_architect, hs, cache_run_set s hs rest]

/-- Claim C5 (amended): once a creation succeeded with a nonempty
handle, every later invocation in the process returns the stored handle
without a remote call; but a failed creation leaves the global unset,
and an invocation makes a remote creation call exactly when the global
is unset under Python truthiness, so the call after a failure retries
the creation instead of returning None without one. -/
theorem cache_memoization_amended (s : String) (hs : ¬(s = "")) :
    (∀ o, get_cached_architect o (some s) = (some s, some s, false))
    ∧ (∀ rest, cache_run rest (some s) = (some s, 0))
    ∧ (∀ o st, (get_cached_architect o st).2.2 = true ↔ (st = none ∨ st = some ""))
    ∧ get_cached_architect none none = (none, none, true) := by
  refine ⟨fun o => by simp [get_cached_architect, hs], cache_run_set s hs,
    fun o st => ?_, rfl⟩
  by_cases h : st = none ∨ st = some ""
  · rcases o with _ | name <;> simp [get_cached_architect, h]
  · simp [get_cached_architect, h]

/-- Witness for cache_memoization_amended: a stored nonempty handle is
reused with no remote call, and a call from the unset state attempts a
remote creation. -/
theorem cache_memoization_amended_witness :
    cache_run [some "x"] (some "cachedContents/abc") = (some "cachedContents/abc", 0)
    ∧ get_cached_architect none none = (none, none, true) :=
  ⟨(cache_memoization_amended "cachedContents/abc" (by decide)).2.1 [some "x"],
   (cache_memoization_amended "cachedContents/abc" (by decide)).2.2.2⟩

/-- Helper: a never-completing operation advances the poll count by the
whole remaining allowance. -/
theorem poll_from_never (done : Nat → Bool) (h : ∀ k, done k = false) :
    ∀ (fuel c : Nat), poll_from done c fuel = c + fuel
  | 0, _ => rfl
  | fuel + 1, c => by
      have hstep : poll_from done c (fuel + 1) = poll_from done (c + 1) fuel := by
        simp [poll_from, h c]
      rw [hstep, poll_from_never done h fuel (c + 1)]
      omega

/-- Helper: the polling loop never exceeds its remaining allowance. -/
theorem poll_from_le (done : Nat → Bool) :
    ∀ (fuel c : Nat), poll_from done c fuel ≤ c + fuel
  | 0, c => Nat.le_refl c
  | fuel + 1, c => by
      by_cases h : done c = true
      · have hstep : poll_from done c (fuel + 1) = c := by simp [poll_from, h]
        rw [hstep]
        omega
      · have hstep : poll_from done c (fuel + 1) = poll_from done (c + 1) fuel := by
          simp [poll_from, h]
        rw [hstep]
        exact le_trans (poll_from_le done fuel (c + 1)) (by omega)

/-- Claim C6: when the operation never reports completion, the poll
count reaches exactly max_polls = 120 — never fewer, never more — and
AIService.generate_video returns the failure value None; and for every
completion behavior the loop terminates within the 120-poll allowance. -/
theorem poller_timeout_exact_120 (done : Nat → Bool) (has_videos : Bool)
    (fname : String) (h : ∀ k, done k = false) :
    poll_from done 0 max_polls = max_polls
    ∧ generate_video_model false done has_videos fname = none
    ∧ (∀ (d : Nat → Bool) (fuel c : Nat), poll_from d c fuel ≤ c + fuel) := by
  have h120 : poll_from done 0 max_polls = max_polls := by
    simpa using poll_from_never done h max_polls 0
  refine ⟨h120, ?_, fun d fuel c => poll_from_le d fuel c⟩
  simp [generate_video_model, h120, h max_polls]

/-- Witness for poller_timeout_exact_120 at the constantly-unfinished
operation. -/
theorem poller_timeout_exact_120_witness :
    poll_from (fun _ => false) 0 max_polls = max_polls
    ∧ generate_video_model false (fun _ => false) true "veo.mp4" = none
    ∧ (∀ (d : Nat → Bool) (fuel c : Nat), poll_from d c fuel ≤ c + fuel) :=
  poller_timeout_exact_120 (fun _ => false) true "veo.mp4" (fun _ => rfl)

/-- Claim C7: when the planning call or the parsing of its structured
response fails, plan_presentation yields None and the generate route
aborts with the Planning Failed error, identically for every image
oracle, video oracle and completion order — so no media generation
influences the outcome and no presentation is produced; failure of the
remote call and failure of the parse each yield the None plan. -/
theorem planning_failure_aborts (callRes : Option String)
    (parse : String → Option Plan) (txt : String) (user : Option Nat)
    (usage : Nat) (scf evf : Option String) (k : Int)
    (img : Nat → Option (String × String))
    (vid : String → String → Option String) (ord : List Nat)
    (hallow : ¬(user = none ∧ 15 ≤ usage))
    (hparse : parse_slide_count scf = some k)
    (hplan : plan_presentation callRes parse = none) :
    (generate_route user usage scf evf (plan_presentation callRes parse)
        img vid ord).1 = GenOutcome.error "Planning Failed"
    ∧ plan_presentation none parse = none
    ∧ (parse txt = none → plan_presentation (some txt) parse = none) := by
  refine ⟨?_, rfl, fun h => h⟩
  rw [hplan]
  unfold generate_route
  rw [if_neg hallow, hparse]

/-- Witness for planning_failure_aborts at a failing remote call for an
authenticated caller. -/
theorem planning_failure_aborts_witness :
    (generate_route (some 1) 0 none none
        (plan_presentation none (fun _ => none)) imgAllOk vidOk [0]).1
      = GenOutcome.error "Planning Failed"
    ∧ plan_presentation none (fun _ => none) = none
    ∧ ((fun _ => (none : Option Plan)) "x" = none →
        plan_presentation (some "x") (fun _ => none) = none) :=
  planning_failure_aborts none (fun _ => none) "x" (some 1) 0 none none 3
    imgAllOk vidOk [0] (by simp) rfl rfl

/-- Claim C9, counterexample: with the slide_count field holding the
non-numeric string abc the request aborts with an uncaught ValueError
instead of applying the default, and the non-positive values 0 and -2
pass the conversion unchanged, so no positive-integer validation
happens. -/
theorem slide_count_invalid_fails_request :
    generate_route (some 1) 0 (some "abc") none (some planA) imgAllOk vidNone [0]
      = (GenOutcome.error "ValueError", 0)
    ∧ parse_slide_count (some "0") = some 0
    ∧ parse_slide_count (some "-2") = some (-2) :=
  ⟨rfl, rfl, rfl⟩

/-- Claim C9 (amended): the slide count defaults to 3 exactly when the
field is absent; a present field goes through the Python int conversion
and is used as converted with no positivity check; a non-convertible
field aborts the request with an uncaught ValueError, before the guest
counter increment, instead of falling back to the default. -/
theorem slide_count_parsing_amended (s : String) (n : Int) (user : Option Nat)
    (usage : Nat) (evf : Option String) (pr : Option Plan)
    (img : Nat → Option (String × String))
    (vid : String → String → Option String) (ord : List Nat)
    (hallow : ¬(user = none ∧ 15 ≤ usage)) :
    parse_slide_count none = some 3
    ∧ (parseIntPy s = some n → parse_slide_count (some s) = some n)
    ∧ (parseIntPy s = none →
        generate_route user usage (some s) evf pr img vid ord
          = (GenOutcome.error "ValueError", usage)) := by
  refine ⟨rfl, fun h => h, fun h => ?_⟩
  have h2 : parse_slide_count (some s) = none := h
  unfold generate_route
  rw [if_neg hallow, h2]

/-- Witness for slide_count_parsing_amended: a non-numeric field value
aborts the request with the counter untouched. -/
theorem slide_count_parsing_amended_witness :
    generate_route (some 1) 0 (some "zzz") none none imgAllFail vidNone []
      = (GenOutcome.error "ValueError", 0) :=
  (slide_count_parsing_amended "zzz" 0 (some 1) 0 none none imgAllFail vidNone []
    (by simp)).2.2 rfl

/-- Claim C10: whenever the generate route persists a presentation, the
stored has_video flag equals the enable_video request input (the form
field equalling the string true), independently of the image and video
outcomes and of the media types actually stored in the slides. -/
theorem has_video_equals_enable_video (user : Option Nat) (usage : Nat)
    (scf evf : Option String) (pr : Option Plan)
    (img : Nat → Option (String × String))
    (vid : String → String → Option String) (ord : List Nat) (t : String)
    (sl : List (Option SlideResult)) (o : Option Nat) (hv : Bool) (u2 : Nat)
    (h : generate_route user usage scf evf pr img vid ord
          = (GenOutcome.success t sl o hv, u2)) :
    hv = (evf == some "true") := by
  unfold generate_route at h
  split at h
  · simp at h
  · split at h
    · simp at h
    · split at h
      · simp at h
      · split at h
        · simp at h
        · simp only [Prod.mk.injEq, GenOutcome.success.injEq] at h
          exact h.1.2.2.2.symm

/-- Witness for has_video_equals_enable_video: video requested, the
video call fails, the persisted flag is still true. -/
theorem has_video_equals_enable_video_witness :
    true = ((some "true" : Option String) == some "true") :=
  has_video_equals_enable_video (some 1) 0 none (some "true") (some planA)
    imgAllOk vidNone [0] "T" [some resImgA] (some 1) true 0 rfl

/-- Helper: mapping the pairing over an Except value exposes the
underlying successful result. -/
theorem map_pair_ok (e : Except String SlideResult)
    (g : SlideResult → SlideResult × Option String) (r : SlideResult)
    (mu2 : Option String) (h : e.map g = Except.ok (r, mu2)) :
    ∃ r0, e = Except.ok r0 ∧ g r0 = (r, mu2) := by
  cases e with
  | error e => simp [Except.map] at h
  | ok r0 => exact ⟨r0, rfl, by simpa [Except.map] using h⟩

/-- Helper: the media_type stored by mkResult is the one the iteration
computed, whichever branch of the media_url ternary was taken. -/
theorem mkResult_media_type (s : Slide) (iu : String) (mu : Option String)
    (mt : String) (r : SlideResult) (h : mkResult s iu mu mt = Except.ok r) :
    r.media_type = mt := by
  unfold mkResult at h
  split at h
  · injection h with h2
    subst h2
    rfl
  · cases mu with
    | none => simp at h
    | some u =>
        injection h with h2
        subst h2
        rfl

/-- Helper: a fan-in iteration can only store the video media type at
index 0, with enable_video set, with a truthy video prompt, and with an
image success whose local path is truthy. -/
theorem processSlide_video (img : Option (String × String))
    (videoRes : String → String → Option String) (enable_video : Bool)
    (idx : Nat) (s : Slide) (mu : Option String) (r : SlideResult)
    (mu2 : Option String)
    (h : processSlide img videoRes enable_video idx s mu = Except.ok (r, mu2))
    (hv : r.media_type = "video") :
    idx = 0 ∧ enable_video = true ∧ ¬(s.video_prompt = "")
    ∧ (∃ f p, img = some (f, p) ∧ ¬(p = "")) := by
  cases img with
  | none =>
      obtain ⟨r0, he, hg⟩ := map_pair_ok _ _ _ _ h
      have := mkResult_media_type _ _ _ _ _ he
      rw [Prod.mk.injEq] at hg
      rw [hg.1] at this
      rw [this] at hv
      simp at hv
  | some fp =>
      obtain ⟨f, p⟩ := fp
      simp only [processSlide] at h
      by_cases hc : enable_video = true ∧ idx = 0 ∧ ¬(s.video_prompt = "")
          ∧ ¬(p = "")
      · rw [if_pos hc] at h
        cases hvr : videoRes p s.video_prompt with
        | none =>
            simp only [hvr] at h
            obtain ⟨r0, he, hg⟩ := map_pair_ok _ _ _ _ h
            have := mkResult_media_type _ _ _ _ _ he
            rw [Prod.mk.injEq] at hg
            rw [hg.1] at this
            rw [this] at hv
            simp at hv
        | some v =>
            simp only [hvr] at h
            by_cases hve : v = ""
            · rw [if_pos hve] at h
              obtain ⟨r0, he, hg⟩ := map_pair_ok _ _ _ _ h
              have := mkResult_media_type _ _ _ _ _ he
              rw [Prod.mk.injEq] at hg
              rw [hg.1] at this
              rw [this] at hv
              simp at hv
            · exact ⟨hc.2.1, hc.1, hc.2.2.1, f, p, rfl, hc.2.2.2⟩
      · rw [if_neg hc] at h
        obtain ⟨r0, he, hg⟩ := map_pair_ok _ _ _ _ h
        have := mkResult_media_type _ _ _ _ _ he
        rw [Prod.mk.injEq] at hg
        rw [hg.1] at this
        rw [this] at hv
        simp at hv

/-- Helper: the fan-in loop preserves the property that only slide 0,
under the video-enabling conditions, carries the video media type. -/
theorem runBatchAux_video_inv (imgRes : Nat → Option (String × String))
    (videoRes : String → String → Option String) (ev : Bool) (plan : Plan)
    (order : List Nat) :
    ∀ (acc : List (Option SlideResult)) (mu : Option String)
      (L : List (Option SlideResult)),
      runBatchAux imgRes videoRes ev plan order acc mu = Except.ok L →
      (∀ i r, acc[i]? = some (some r) → r.media_type = "video" →
        i = 0 ∧ ev = true
        ∧ (∃ f p, imgRes 0 = some (f, p) ∧ ¬(p = ""))
        ∧ (∃ s0, plan.slides[0]? = some s0 ∧ ¬(s0.video_prompt = ""))) →
      ∀ i r, L[i]? = some (some r) → r.media_type = "video" →
        i = 0 ∧ ev = true
        ∧ (∃ f p, imgRes 0 = some (f, p) ∧ ¬(p = ""))
        ∧ (∃ s0, plan.slides[0]? = some s0 ∧ ¬(s0.video_prompt = "")) := by
  induction order with
  | nil =>
      intro acc mu L h hacc i r hL hv
      injection h with h2
      subst h2
      exact hacc i r hL hv
  | cons idx rest ih =>
      intro acc mu L h hacc i r hL hv
      cases hs : plan.slides[idx]? with
      | none => simp [runBatchAux, hs] at h
      | some s =>
          cases hp : processSlide (imgRes idx) videoRes ev idx s mu with
          | error e => simp [runBatchAux, hs, hp] at h
          | ok pr =>
              obtain ⟨r2, mu2⟩ := pr
              simp only [runBatchAux, hs, hp] at h
              refine ih (acc.set idx (some r2)) mu2 L h ?_ i r hL hv
              intro j rj hj hvj
              by_cases hji : idx = j
              · subst hji
                rcases Nat.lt_or_ge idx acc.length with hlt | hge
                · rw [List.getElem?_set_self hlt] at hj
                  have hrj : r2 = rj := by simpa using hj
                  obtain ⟨h0, hev, hvp, f, p, hfp, hpne⟩ :=
                    processSlide_video (imgRes idx) videoRes ev idx s mu r2 mu2
                      hp (hrj ▸ hvj)
                  subst h0
                  exact ⟨rfl, hev, ⟨f, p, hfp, hpne⟩, ⟨s, hs, hvp⟩⟩
                · rw [List.getElem?_eq_none (by simpa using hge)] at hj
                  simp at hj
              · rw [List.getElem?_set_ne hji] at hj
                exact hacc j rj hj hvj

/-- Claim C3: in every successful batch outcome, a stored slide with
the video media type can only sit at index 0, only with enable_video
set, only when the image generation of slide 0 succeeded with a truthy
local path, and only when slide 0 has a truthy video prompt; in
particular with enable_video false no stored slide has the video type,
and no index above 0 ever does. -/
theorem video_only_slide_zero (imgRes : Nat → Option (String × String))
    (videoRes : String → String → Option String) (ev : Bool) (plan : Plan)
    (order : List Nat) (L : List (Option SlideResult))
    (h : runBatch imgRes videoRes ev plan order = Except.ok L) :
    ∀ i r, L[i]? = some (some r) → r.media_type = "video" →
      i = 0 ∧ ev = true
      ∧ (∃ f p, imgRes 0 = some (f, p) ∧ ¬(p = ""))
      ∧ (∃ s0, plan.slides[0]? = some s0 ∧ ¬(s0.video_prompt = "")) := by
  intro i r hL hv
  refine runBatchAux_video_inv imgRes videoRes ev plan order _ none L h
    ?_ i r hL hv
  intro j rj hj _
  rw [List.getElem?_replicate] at hj
  split at hj <;> simp at hj

/-- Witness for video_only_slide_zero at a batch whose slide 0 video
call succeeded. -/
theorem video_only_slide_zero_witness :
    (0 : Nat) = 0 ∧ true = true
    ∧ (∃ f p, imgAllOk 0 = some (f, p) ∧ ¬(p = ""))
    ∧ (∃ s0, planA.slides[0]? = some s0 ∧ ¬(s0.video_prompt = "")) :=
  video_only_slide_zero imgAllOk vidOk true planA [0] [some resVidA] rfl
    0 resVidA rfl rfl

/-- Helper: a slot whose index is outside the remaining completion
order keeps its value through the rest of the fan-in loop. -/
theorem runBatchAux_not_mem (imgRes : Nat → Option (String × String))
    (videoRes : String → String → Option String) (ev : Bool) (plan : Plan)
    (order : List Nat) :
    ∀ (acc : List (Option SlideResult)) (mu : Option String)
      (L : List (Option SlideResult)) (j : Nat),
      runBatchAux imgRes videoRes ev plan order acc mu = Except.ok L →
      j ∉ order → L[j]? = acc[j]? := by
  induction order with
  | nil =>
      intro acc mu L j h _
      injection h with h2
      rw [← h2]
  | cons idx rest ih =>
      intro acc mu L j h hmem
      have h1 : ¬(idx = j) := fun e => hmem (by simp [e])
      have h2 : j ∉ rest := fun e => hmem (by simp [e])
      cases hs : plan.slides[idx]? with
      | none => simp [runBatchAux, hs] at h
      | some s =>
          cases hp : processSlide (imgRes idx) videoRes ev idx s mu with
          | error e => simp [runBatchAux, hs, hp] at h
          | ok pr =>
              obtain ⟨r2, mu2⟩ := pr
              simp only [runBatchAux, hs, hp] at h
              rw [ih (acc.set idx (some r2)) mu2 L j h h2,
                List.getElem?_set_ne h1]

/-- Helper: an index occurring in a duplicate-free completion order
ends with exactly the slot written by its own fan-in iteration. -/
theorem runBatchAux_mem (imgRes : Nat → Option (String × String))
    (videoRes : String → String → Option String) (ev : Bool) (plan : Plan)
    (order : List Nat) :
    ∀ (acc : List (Option SlideResult)) (mu : Option String)
      (L : List (Option SlideResult)) (j : Nat),
      runBatchAux imgRes videoRes ev plan order acc mu = Except.ok L →
      j ∈ order → order.Nodup → j < acc.length →
      ∃ s mu0 r mu2, plan.slides[j]? = some s
        ∧ processSlide (imgRes j) videoRes ev j s mu0 = Except.ok (r, mu2)
        ∧ L[j]? = some (some r) := by
  induction order with
  | nil =>
      intro acc mu L j _ hmem
      exact absurd hmem (List.not_mem_nil j)
  | cons idx rest ih =>
      intro acc mu L j h hmem hnd hlen
      rw [List.nodup_cons] at hnd
      cases hs : plan.slides[idx]? with
      | none => simp [runBatchAux, hs] at h
      | some s =>
          cases hp : processSlide (imgRes idx) videoRes ev idx s mu with
          | error e => simp [runBatchAux, hs, hp] at h
          | ok pr =>
              obtain ⟨r2, mu2⟩ := pr
              simp only [runBatchAux, hs, hp] at h
              rcases List.mem_cons.mp hmem with hj | hj
              · subst hj
                have hL : L[j]? = (acc.set j (some r2))[j]? :=
                  runBatchAux_not_mem imgRes videoRes ev plan rest
                    (acc.set j (some r2)) mu2 L j h hnd.1
                rw [List.getElem?_set_self hlen] at hL
                exact ⟨s, mu, r2, mu2, hs, hp, hL⟩
              · exact ih (acc.set idx (some r2)) mu2 L j h hj hnd.2
                  (by rw [List.length_set]; exact hlen)

/-- Helper: when every video call fails, a fan-in iteration over a
successful image with a truthy filename stores exactly the image
record, whatever the incoming local media_url value was. -/
theorem processSlide_video_none (videoRes : String → String → Option String)
    (hvid : ∀ q pr, videoRes q pr = none) (ev : Bool) (idx : Nat) (s : Slide)
    (mu : Option String) (f p : String) (hf : ¬(f = "")) :
    processSlide (some (f, p)) videoRes ev idx s mu =
      Except.ok ({ title := s.title, content := s.content,
                   media_url := url_for_static ("uploads/" ++ f),
                   media_type := "image" },
                 some (url_for_static ("uploads/" ++ f))) := by
  simp only [processSlide]
  by_cases hc : ev = true ∧ idx = 0 ∧ ¬(s.video_prompt = "") ∧ ¬(p = "")
  · rw [if_pos hc]
    simp only [hvid p s.video_prompt, mkResult, if_neg hf, Except.map]
  · rw [if_neg hc]
    simp only [mkResult, if_neg hf, Except.map]

/-- Claim C8: when every video-poller call fails — and the poller turns
any exception into the None failure value, as the last conjunct states
— a batch that completes leaves slide 0, whose image generation
succeeded with a truthy file name f, holding exactly its image URL with
the image media type: the video failure neither invalidates the slide
nor aborts the batch. -/
theorem video_failure_keeps_image (imgRes : Nat → Option (String × String))
    (videoRes : String → String → Option String) (ev : Bool) (plan : Plan)
    (order : List Nat) (L : List (Option SlideResult)) (f p : String)
    (hvid : ∀ q pr, videoRes q pr = none)
    (himg : imgRes 0 = some (f, p)) (hf : ¬(f = ""))
    (hmem : 0 ∈ order) (hnd : order.Nodup) (hlen : 0 < plan.slides.length)
    (h : runBatch imgRes videoRes ev plan order = Except.ok L) :
    (∃ r, L[0]? = some (some r) ∧ r.media_type = "image"
      ∧ r.media_url = url_for_static ("uploads/" ++ f))
    ∧ (∀ (d : Nat → Bool) (hvb : Bool) (fn : String),
        generate_video_model true d hvb fn = none) := by
  refine ⟨?_, fun d hvb fn => rfl⟩
  obtain ⟨s, mu0, r, mu2, _, hp, hL⟩ :=
    runBatchAux_mem imgRes videoRes ev plan order _ none L 0 h hmem hnd
      (by simpa using hlen)
  rw [himg, processSlide_video_none videoRes hvid ev 0 s mu0 f p hf] at hp
  injection hp with hp2
  rw [Prod.mk.injEq] at hp2
  refine ⟨r, hL, ?_, ?_⟩
  · rw [← hp2.1]
  · rw [← hp2.1]

/-- Witness for video_failure_keeps_image: a one-slide batch with video
enabled whose video call fails keeps the image record of slide 0. -/
theorem video_failure_keeps_image_witness :
    (∃ r, ([some resImgA] : List (Option SlideResult))[0]? = some (some r)
      ∧ r.media_type = "image"
      ∧ r.media_url = url_for_static ("uploads/" ++ "a.png"))
    ∧ (∀ (d : Nat → Bool) (hvb : Bool) (fn : String),
        generate_video_model true d hvb fn = none) :=
  video_failure_keeps_image imgAllOk vidNone true planA [0] [some resImgA]
    "a.png" "static/uploads/a.png" (fun _ _ => rfl) rfl (by decide)
    (by decide) (by decide) (by decide) rfl

end MotionPitch
